import Mathlib

/-!
Shallow embedding of the codex-extended turn orchestrator, tool dispatcher,
progressive-compaction engine and token accounting, with theorems settling
the frozen claims about them.

Sources embedded:
- src/codex-cli/src/utils/progressive-compaction.ts
- src/codex-cli/src/utils/token-counter.ts
- src/codex-cli/src/utils/tool-errors.ts
- the AgentLoop file (cancel/terminate/run entry, handleFunctionCall,
  handleLocalShellCall, stageItem, the module-level staged-id set).
-/

namespace Codex

/-! ## Data model: response items

A `ResponseItem` is modelled by its fields that the embedded code inspects:
message items carry a role string and a content array of typed parts;
function calls carry optional ids, name and raw argument text (optional to
mirror the `string | undefined` handling in the source); function-call
outputs carry a call id and an output string.  `other` stands for any item
type the embedded functions do not branch on. -/

inductive ContentPart where
  | inputText (text : String)
  | outputText (text : String)
  | refusalPart (refusal : String)
  | otherPart
  deriving DecidableEq

inductive Item where
  | message (id : String) (role : String) (content : List ContentPart)
  | functionCall (itemId : Option String) (callId : Option String)
      (name : Option String) (arguments : Option String)
  | functionCallOutput (itemId : Option String) (callId : String) (output : String)
  | other (itemId : Option String)
  deriving DecidableEq

def Item.isMessage : Item → Bool
  | .message _ _ _ => true
  | _ => false

def Item.isFunctionCall : Item → Bool
  | .functionCall _ _ _ _ => true
  | _ => false

/-- `item.type === "message" && item.role === "system"`. -/
def Item.isSystemMessage : Item → Bool
  | .message _ role _ => role = "system"
  | _ => false

/-- The `id` field of an item (`undefined` when absent), as read by `stageItem`. -/
def Item.idOf : Item → Option String
  | .message id _ _ => some id
  | .functionCall itemId _ _ _ => itemId
  | .functionCallOutput itemId _ _ => itemId
  | .other itemId => itemId

/-! ## progressive-compaction.ts -/

/-- `enum CompactionLevel` with numeric values 0..4. -/
inductive CompactionLevel where
  | NONE
  | LIGHT
  | MEDIUM
  | HEAVY
  | CRITICAL
  deriving DecidableEq

/-- The numeric value of the enum member. -/
def CompactionLevel.toNat : CompactionLevel → Nat
  | .NONE => 0
  | .LIGHT => 1
  | .MEDIUM => 2
  | .HEAVY => 3
  | .CRITICAL => 4

/-- `CompactionLevel[level]`: the reverse enum mapping to the member name. -/
def CompactionLevel.levelName : CompactionLevel → String
  | .NONE => "NONE"
  | .LIGHT => "LIGHT"
  | .MEDIUM => "MEDIUM"
  | .HEAVY => "HEAVY"
  | .CRITICAL => "CRITICAL"

/-- `getCompactionLevel(contextUsagePercent)`; percentages are modelled as
rationals (JS numbers used only in comparisons and exact arithmetic here). -/
def getCompactionLevel (contextUsagePercent : ℚ) : CompactionLevel :=
  if contextUsagePercent < 70 then .NONE
  else if contextUsagePercent < 80 then .LIGHT
  else if contextUsagePercent < 90 then .MEDIUM
  else if contextUsagePercent < 95 then .HEAVY
  else .CRITICAL

structure CompactionConfig where
  level : CompactionLevel
  keepRecentMessages : Nat
  summarizeOlderThan : Nat
  dropToolOutputs : Bool
  dropSystemMessages : Bool
  aggressiveSummarization : Bool
  deriving DecidableEq

/-- `Number.MAX_SAFE_INTEGER`. -/
def MAX_SAFE_INTEGER : Nat := 9007199254740991

/-- `getCompactionConfig(level)`. -/
def getCompactionConfig (level : CompactionLevel) : CompactionConfig :=
  match level with
  | .LIGHT =>
    { level := level, keepRecentMessages := 10, summarizeOlderThan := 20,
      dropToolOutputs := false, dropSystemMessages := false,
      aggressiveSummarization := false }
  | .MEDIUM =>
    { level := level, keepRecentMessages := 6, summarizeOlderThan := 10,
      dropToolOutputs := true, dropSystemMessages := false,
      aggressiveSummarization := true }
  | .HEAVY =>
    { level := level, keepRecentMessages := 4, summarizeOlderThan := 6,
      dropToolOutputs := true, dropSystemMessages := true,
      aggressiveSummarization := true }
  | .CRITICAL =>
    { level := level, keepRecentMessages := 2, summarizeOlderThan := 3,
      dropToolOutputs := true, dropSystemMessages := true,
      aggressiveSummarization := true }
  | .NONE =>
    { level := .NONE, keepRecentMessages := MAX_SAFE_INTEGER,
      summarizeOlderThan := MAX_SAFE_INTEGER,
      dropToolOutputs := false, dropSystemMessages := false,
      aggressiveSummarization := false }

/-- JavaScript `array.slice(-n)` (the last `n` elements; the whole array
when `n = 0` because `slice(-0)` is `slice(0)`). -/
def sliceLast (l : List Item) (n : Nat) : List Item :=
  if n = 0 then l else l.drop (l.length - n)

/-- JavaScript `array.slice(0, -n)` (drop the last `n` elements; empty
when `n = 0` because `slice(0, -0)` is `slice(0, 0)`). -/
def sliceDropLast (l : List Item) (n : Nat) : List Item :=
  if n = 0 then [] else l.take (l.length - n)

/-- The `olderMessages.forEach((item, index) => ...)` loop of
`prepareItemsForCompaction`: when `index < threshold` the item is pushed
onto `toSummarize`, otherwise it is unshifted onto `toKeep`.  The
accumulator pair is `(toSummarize, toKeep)`; in the source the threshold is
`messageItems.length - config.summarizeOlderThan` (a JS number that may be
negative, in which case no index is below it — matched here by truncated
`Nat` subtraction producing `0`). -/
def olderLoop (threshold : Nat) :
    List Item → Nat → List Item × List Item → List Item × List Item
  | [], _, acc => acc
  | item :: rest, index, (toSummarize, toKeep) =>
    if index < threshold then
      olderLoop threshold rest (index + 1) (toSummarize ++ [item], toKeep)
    else
      olderLoop threshold rest (index + 1) (toSummarize, item :: toKeep)

structure CompactionSplit where
  toSummarize : List Item
  toKeep : List Item
  toDropInfo : List String
  deriving DecidableEq

/-- `prepareItemsForCompaction(items, config)`. -/
def prepareItemsForCompaction (items : List Item) (config : CompactionConfig) :
    CompactionSplit :=
  let messageItems := items.filter Item.isMessage
  let toolCalls := items.filter Item.isFunctionCall
  let recentMessages := sliceLast messageItems config.keepRecentMessages
  let olderMessages := sliceDropLast messageItems config.keepRecentMessages
  let pair := olderLoop (messageItems.length - config.summarizeOlderThan)
      olderMessages 0 ([], recentMessages)
  let toSummarize := pair.1
  let toKeep0 := pair.2
  let toKeep1 :=
    if !config.dropToolOutputs then
      toKeep0 ++ sliceLast toolCalls (config.keepRecentMessages / 2)
    else toKeep0
  let toDropInfo0 : List String :=
    if config.dropToolOutputs then
      ["Dropped " ++ toString toolCalls.length ++ " tool call outputs"]
    else []
  if config.dropSystemMessages then
    let systemCount := (toKeep1.filter Item.isSystemMessage).length
    let toKeep2 := toKeep1.filter (fun i => !(Item.isSystemMessage i))
    let toDropInfo1 :=
      if systemCount > 0 then
        toDropInfo0 ++ ["Dropped " ++ toString systemCount ++ " system messages"]
      else toDropInfo0
    { toSummarize := toSummarize, toKeep := toKeep2, toDropInfo := toDropInfo1 }
  else
    { toSummarize := toSummarize, toKeep := toKeep1, toDropInfo := toDropInfo0 }

/-! ### Derived characterizations of the partition (proved below, used to
state the order claims). -/

def messageItemsOf (items : List Item) : List Item :=
  items.filter Item.isMessage

def toolCallsOf (items : List Item) : List Item :=
  items.filter Item.isFunctionCall

def recentMessagesOf (items : List Item) (config : CompactionConfig) : List Item :=
  sliceLast (messageItemsOf items) config.keepRecentMessages

def olderMessagesOf (items : List Item) (config : CompactionConfig) : List Item :=
  sliceDropLast (messageItemsOf items) config.keepRecentMessages

/-- The index threshold below which an older message is summarized. -/
def summarizeThreshold (items : List Item) (config : CompactionConfig) : Nat :=
  (messageItemsOf items).length - config.summarizeOlderThan

/-- The older messages kept verbatim (those at index at least the threshold),
in their input order. -/
def keptOlderOf (items : List Item) (config : CompactionConfig) : List Item :=
  (olderMessagesOf items config).drop (summarizeThreshold items config)

/-- The recent tool calls appended to `toKeep` when tool outputs are kept. -/
def keptToolCallsOf (items : List Item) (config : CompactionConfig) : List Item :=
  if !config.dropToolOutputs then
    sliceLast (toolCallsOf items) (config.keepRecentMessages / 2)
  else []

/-! ## token-counter.ts

The byte-pair tokenizer (`encode` from the external gpt-tokenizer package)
and the chat encoder (`encodeChat`, after the model-family name mapping)
are external collaborators; the embedding takes them as parameters
`enc : String → Nat` (the length of `encode(text)`) and
`encChat : List ChatMessage → Nat` (the length of `encodeChat(messages,
gptModel)`).  The `try`/`catch` fallbacks are not taken on the successful
path modelled here. -/

structure ChatMessage where
  role : String
  content : String
  deriving DecidableEq

/-- `responseItemToChatMessage(item)`: `null` for non-message items,
otherwise the concatenated text of `input_text`/`output_text`/`refusal`
parts with the role mapped onto assistant/system/user. -/
def responseItemToChatMessage : Item → Option ChatMessage
  | .message _ role content =>
    let text := content.foldl (fun acc c =>
      match c with
      | .inputText t => acc ++ t
      | .outputText t => acc ++ t
      | .refusalPart r => acc ++ r
      | .otherPart => acc) ""
    let mappedRole :=
      if role = "assistant" then "assistant"
      else if role = "system" then "system"
      else "user"
    some { role := mappedRole, content := text }
  | _ => none

/-- `countTokensInText(text)` on the non-throwing path is
`encode(text).length`, supplied as the parameter `enc`. -/
def countTokensInText (enc : String → Nat) (text : String) : Nat :=
  enc text

/-- `countFunctionCallTokens(item)`: name/argument/output tokens plus the
fixed framing overhead (7 for calls, 3 for outputs); JS truthiness makes an
absent or empty name/arguments contribute 0. -/
def countFunctionCallTokens (enc : String → Nat) : Item → Nat
  | .functionCall _ _ name arguments =>
    let nameTokens := match name with
      | some n => if n = "" then 0 else countTokensInText enc n
      | none => 0
    let argsTokens := match arguments with
      | some a => if a = "" then 0 else countTokensInText enc a
      | none => 0
    nameTokens + argsTokens + 7
  | .functionCallOutput _ _ output => countTokensInText enc output + 3
  | _ => 0

/-- Whether an item enters the `messages` list of `countTokensUsed`
(`chatMessage && chatMessage.content`: a message whose extracted text is
non-empty). -/
def entersMessages (item : Item) : Bool :=
  match responseItemToChatMessage item with
  | some m => m.content ≠ ""
  | none => false

/-- `countTokensUsed(items, model)` on the non-throwing path:
`encodeChat` over the chat messages plus the function-call token sum.
Items that are neither chat-countable messages nor function calls/outputs
contribute nothing; a message with empty extracted text falls through to
the `else if` on its type and also contributes nothing. -/
def countTokensUsed (enc : String → Nat) (encChat : List ChatMessage → Nat)
    (items : List Item) : Nat :=
  let messages := (items.filter entersMessages).filterMap responseItemToChatMessage
  let functionCallTokens := (items.filter (fun i => !(entersMessages i))).foldl
    (fun acc i =>
      match i with
      | .functionCall _ _ _ _ => acc + countFunctionCallTokens enc i
      | .functionCallOutput _ _ _ => acc + countFunctionCallTokens enc i
      | _ => acc) 0
  if messages.length > 0 then encChat messages + functionCallTokens
  else functionCallTokens

structure TokenStats where
  used : ℚ
  max : ℚ
  remaining : ℚ
  percentUsed : ℚ
  percentRemaining : ℚ
  deriving DecidableEq

/-- `getTokenStats(items, model, maxTokens)`; the floating-point divisions
are modelled exactly over ℚ. -/
def getTokenStats (enc : String → Nat) (encChat : List ChatMessage → Nat)
    (items : List Item) (maxTokens : ℚ) : TokenStats :=
  let used : ℚ := (countTokensUsed enc encChat items : ℚ)
  let remaining : ℚ := max 0 (maxTokens - used)
  { used := used
    max := maxTokens
    remaining := remaining
    percentUsed := used / maxTokens * 100
    percentRemaining := remaining / maxTokens * 100 }

/-! ## performProgressiveCompaction

`generateProgressiveSummary` calls the external completion service; the
embedding takes the summarizer as a parameter `summ` and `Date.now()` as
`now`.  The token counter parameter `tc` stands for
`countTokensUsed(items, model)` (instantiated through `countTokensUsed`
with concrete encoders in the theorems below).  The source function is
recursive with no structural measure; the embedding adds an explicit
`fuel` depth, `none` meaning the recursion did not complete within `fuel`
unfoldings (so `∀ fuel, ... = none` exhibits non-termination). -/

/-- The synthetic summary message pushed first into `compactedItems`. -/
def summaryMessage (now : Nat) (level : CompactionLevel) (summary : String)
    (toDropInfo : List String) : Item :=
  let levelIndicator := if CompactionLevel.HEAVY.toNat ≤ level.toNat then "⚠️" else "📝"
  let dropInfo :=
    if toDropInfo.length > 0 then "\n\n_" ++ String.intercalate ", " toDropInfo ++ "_"
    else ""
  .message ("progressive-compact-" ++ toString now) "assistant"
    [.outputText (levelIndicator ++ " **[Level " ++ level.levelName ++
      " Compaction]**\n\n" ++ summary ++ dropInfo)]

structure CompactionResult where
  compactedItems : List Item
  level : CompactionLevel
  tokensFreed : ℚ
  deriving DecidableEq

/-- `performProgressiveCompaction(items, model, config, contextUsagePercent,
maxTokens)` with explicit recursion fuel. -/
def performProgressiveCompaction (tc : List Item → ℚ) (summ : List Item → String)
    (now : Nat) :
    Nat → List Item → ℚ → ℚ → Option CompactionResult
  | 0, _, _, _ => none
  | fuel + 1, items, contextUsagePercent, maxTokens =>
    let originalTokens := tc items
    let level := getCompactionLevel contextUsagePercent
    if level = CompactionLevel.NONE then
      some { compactedItems := items, level := level, tokensFreed := 0 }
    else
      let compactionConfig := getCompactionConfig level
      let split := prepareItemsForCompaction items compactionConfig
      let summary := if split.toSummarize.length > 0 then summ split.toSummarize else ""
      let compactedItems :=
        (if summary ≠ "" then [summaryMessage now level summary split.toDropInfo] else [])
          ++ split.toKeep
      let newTokens := tc compactedItems
      let tokensFreed := originalTokens - newTokens
      let newUsagePercent := newTokens / maxTokens * 100
      if 90 < newUsagePercent ∧ level.toNat < CompactionLevel.CRITICAL.toNat then
        performProgressiveCompaction tc summ now fuel compactedItems newUsagePercent maxTokens
      else
        some { compactedItems := compactedItems, level := level,
               tokensFreed := tokensFreed }

/-! ## JSON values

JSON values produced by `JSON.stringify` / consumed by `JSON.parse` are
modelled structurally; `JSON.stringify` of an object is modelled as the
object itself (a field list in insertion order, properties with an
`undefined` value omitted, as stringify does). -/

inductive Json where
  | str (s : String)
  | num (n : ℤ)
  | bool (b : Bool)
  | null
  | arr (elems : List Json)
  | obj (fields : List (String × Json))

/-- Field lookup in an object value (`none` on non-objects and absent keys). -/
def Json.lookupField : Json → String → Option Json
  | .obj fields, key => List.lookup key fields
  | _, _ => none

/-- Reads `obj.key` as a JS `string | undefined` cast: `some` only when the
property exists and is a string. -/
def Json.getStr (j : Json) (key : String) : Option String :=
  match j.lookupField key with
  | some (.str s) => some s
  | _ => none

/-- JS truthiness of a `string | undefined` value. -/
def jsTruthyStr : Option String → Bool
  | some s => s ≠ ""
  | none => false

/-- JS `a || dflt` on a `string | undefined` value. -/
def jsOrStr (o : Option String) (dflt : String) : String :=
  match o with
  | some s => if s = "" then dflt else s
  | none => dflt

/-- JS `String.prototype.includes`. -/
def strContains (s pat : String) : Bool :=
  (List.range (s.toList.length + 1)).any (fun i => pat.toList.isPrefixOf (s.toList.drop i))

/-! ## tool-errors.ts -/

structure ToolErrorDetails where
  tool : String
  expectedFormat : Option String
  receivedValue : Option Json
  validationErrors : Option (List String)
  suggestion : Option String
  examplePayload : Option Json

/-- The `details` object as serialized (optional properties that are
`undefined` are omitted by `JSON.stringify`). -/
def toolErrorDetailsJson (d : ToolErrorDetails) : Json :=
  .obj ([("tool", Json.str d.tool)]
    ++ (match d.expectedFormat with | some f => [("expectedFormat", Json.str f)] | none => [])
    ++ (match d.receivedValue with | some v => [("receivedValue", v)] | none => [])
    ++ (match d.validationErrors with
        | some es => [("validationErrors", Json.arr (es.map Json.str))]
        | none => [])
    ++ (match d.suggestion with | some s => [("suggestion", Json.str s)] | none => [])
    ++ (match d.examplePayload with | some e => [("example", e)] | none => []))

/-- `ToolExecutionError.toJSON()`: `{error: true, code, message, details,
suggestion: details.suggestion, example: details.example}` as serialized
(the `example` detail field is `examplePayload` here because `example` is a
Lean keyword). -/
def toolExecutionErrorToJSON (code message : String) (d : ToolErrorDetails) : Json :=
  .obj ([("error", Json.bool true), ("code", Json.str code),
         ("message", Json.str message), ("details", toolErrorDetailsJson d)]
    ++ (match d.suggestion with | some s => [("suggestion", Json.str s)] | none => [])
    ++ (match d.examplePayload with | some e => [("example", e)] | none => []))

/-- `getErrorMessage(code, toolName)`. -/
def getErrorMessage (code toolName : String) : String :=
  if code = "INVALID_ARGUMENTS" then "Invalid arguments provided for " ++ toolName ++ " tool"
  else if code = "MISSING_REQUIRED_FIELD" then "Missing required field for " ++ toolName ++ " tool"
  else if code = "INVALID_JSON" then "Failed to parse JSON arguments for " ++ toolName ++ " tool"
  else if code = "TOOL_NOT_FOUND" then "Tool " ++ toolName ++ " not found"
  else if code = "EXECUTION_FAILED" then "Failed to execute " ++ toolName ++ " tool"
  else if code = "TIMEOUT" then toolName ++ " tool execution timed out"
  else if code = "VALIDATION_ERROR" then "Validation failed for " ++ toolName ++ " tool parameters"
  else ""

/-- `getToolExample(toolName)` (`null` for unknown tools). -/
def getToolExample (toolName : String) : Json :=
  if toolName = "todo_list" then
    .obj [("action", .str "add"), ("content", .str "Implement new feature"),
          ("priority", .str "high")]
  else if toolName = "scratchpad" then
    .obj [("action", .str "write"), ("content", .str "Important note"),
          ("category", .str "note")]
  else if toolName = "shell" then
    .obj [("command", .arr [.str "ls", .str "-la"])]
  else if toolName = "fetch_url" then
    .obj [("url", .str "https://example.com")]
  else if toolName = "web_search" then
    .obj [("query", .str "OpenAI documentation")]
  else .null

/-- `getExpectedFormat(toolName)`. -/
def getExpectedFormat (toolName : String) : String :=
  if toolName = "todo_list" then
    "\x7b\"action\": \"add|update|list|complete|start|block|next|summary\", \"content\"?: string, \"id\"?: string, \"priority\"?: \"low|medium|high\", \"status\"?: string\x7d"
  else if toolName = "scratchpad" then
    "\x7b\"action\": \"write|read|update|delete|clear|summarize\", \"content\"?: string, \"category\"?: \"note|plan|result|error|state\", \"id\"?: string\x7d"
  else if toolName = "shell" then "\x7b\"command\": string[]\x7d"
  else if toolName = "fetch_url" then "\x7b\"url\": string\x7d"
  else if toolName = "web_search" then "\x7b\"query\": string\x7d"
  else "Unknown format"

/-! ## Argument parsing for shell-style tools (scratchpad.ts)

`JSON.parse` (throwing on failure) is modelled as a parameter
`jsonParse : String → Option Json`, and the regex-based
`attemptJSONRepair` as a parameter `repair : String → String`. -/

/-- `toStringArray(obj)`. -/
def toStringArray : Json → Option (List String)
  | .arr elems =>
    if elems.all (fun e => match e with | .str _ => true | _ => false) then
      some (elems.filterMap (fun e => match e with | .str s => some s | _ => none))
    else none
  | _ => none

structure ExecInput where
  cmd : List String
  workdir : Option String
  timeoutInMillis : Option ℤ
  deriving DecidableEq

/-- `parseToolCallArguments(toolCallArguments)`.  In JS, arrays and `null`
also satisfy `typeof json === "object"`; destructuring them yields no
`cmd`/`command`, so they fall through to `undefined` exactly as the
non-object catch-all arm here does. -/
def parseToolCallArguments (jsonParse : String → Option Json)
    (repair : String → String) (toolCallArguments : String) : Option ExecInput :=
  let json? :=
    match jsonParse toolCallArguments with
    | some j => some j
    | none => jsonParse (repair toolCallArguments)
  match json? with
  | none => none
  | some (.obj fields) =>
    let cmd := List.lookup "cmd" fields
    let command := List.lookup "command" fields
    let commandArray :=
      (cmd.bind toStringArray) <|> (command.bind toStringArray)
        <|> (match cmd with | some (.str s) => some [s] | _ => none)
        <|> (match command with | some (.str s) => some [s] | _ => none)
    match commandArray with
    | none => none
    | some arr =>
      some { cmd := arr
             workdir := match List.lookup "workdir" fields with
               | some (.str s) => some s | _ => none
             timeoutInMillis := match List.lookup "timeout" fields with
               | some (.num n) => some n | _ => none }
  | some _ => none

/-! ## AgentLoop.handleFunctionCall / handleLocalShellCall

Tool executors (`handleScratchpadTool`, `handleTodoListTool`,
`handleToolsInfo`, `handleExecCommand`, `fetchUrlStructured`,
`searchWebStructured`) are awaited collaborators whose outcomes are
supplied through a `ToolRuntime`; a `ToolOutcome.validationError` carries
the final `suggestedFix || getToolValidationExample(toolName, action)`
string.  `handleExecCommand` is modelled as returning (its source is not
part of the dispatcher).  `searchOutcome.ok` carries the already
pretty-printed `JSON.stringify(result, null, 2)` text that the source
embeds into the payload. -/

/-- The items a dispatch returns (`function_call_output`,
`local_shell_call_output`, the re-prompt system messages pushed into
`additionalItems`, and items forwarded from `handleExecCommand`). -/
inductive OutPayload where
  | raw (s : String)
  | json (j : Json)

inductive OutItem where
  | functionCallOutput (callId : Option String) (output : OutPayload)
  | localShellCallOutput (callId : Option String) (output : OutPayload)
  | systemMessage (text : String)
  | execExtra (tag : String)

inductive ToolOutcome where
  | success (result : String)
  | validationError (message correctUsage : String)
  | failure (errorText : String)

structure FetchUrlResult where
  summary : Option String
  contentType : String
  originalSize : Nat
  processedSize : Nat
  raw : Option String
  metadataFields : List (String × Json)

structure ToolRuntime where
  scratchpadOutcome : ToolOutcome
  todoListOutcome : ToolOutcome
  toolsInfoOutcome : ToolOutcome
  execOutputText : String
  execMetadata : Json
  execAdditionalItems : List OutItem
  fetchOutcome : Except String FetchUrlResult
  searchOutcome : Except String String
  provider : String

/-- `MAX_OUTPUT_LENGTH` (the 10KB default cap). -/
def MAX_OUTPUT_LENGTH : Nat := 10000

/-- `TRUNCATION_MESSAGE` (braces of the source template written `\x7b`/`\x7d`). -/
def TRUNCATION_MESSAGE : String :=
  "\n\n[Output truncated from \x7boriginalLength\x7d to \x7bmaxLength\x7d characters]"

/-- `TOOL_OUTPUT_LIMITS`: the per-tool-family caps. -/
def TOOL_OUTPUT_LIMITS : List (String × Nat) :=
  [("shell", 10000), ("fetch_url", 20000), ("web_search", 15000),
   ("container.exec", 10000)]

/-- JS `String.prototype.replace` with a string pattern substitutes only
the first occurrence; structural recursion over the character list. -/
def replaceOnceList (pat sub : List Char) : List Char → List Char
  | [] => []
  | c :: rest =>
    if pat.isPrefixOf (c :: rest) then sub ++ (c :: rest).drop pat.length
    else c :: replaceOnceList pat sub rest

/-- JS `s.replace(pat, sub)` for a plain string pattern. -/
def replaceOnce (s pat sub : String) : String :=
  String.mk (replaceOnceList pat.toList sub.toList s.toList)

/-- `TRUNCATION_MESSAGE` with both placeholders substituted: the marker
appended to a truncated output, stating the original and the truncated
length. -/
def truncationMarker (originalLength maxLength : Nat) : String :=
  replaceOnce (replaceOnce TRUNCATION_MESSAGE "\x7boriginalLength\x7d" (toString originalLength))
    "\x7bmaxLength\x7d" (toString maxLength)

/-- The `truncateOutput` helper closed over in `handleFunctionCall`. -/
def truncateOutput (text : String) (maxLength : Nat) : String :=
  if text.length ≤ maxLength then text
  else text.take maxLength ++ truncationMarker text.length maxLength

/-- The `getOutputLimit` helper: `TOOL_OUTPUT_LIMITS[toolName] ||
MAX_OUTPUT_LENGTH` (a 0 entry would be falsy, hence the inner guard). -/
def getOutputLimit (toolName : String) : Nat :=
  match List.lookup toolName TOOL_OUTPUT_LIMITS with
  | some n => if n = 0 then MAX_OUTPUT_LENGTH else n
  | none => MAX_OUTPUT_LENGTH

/-- The `.replace(/\n/g, "\\n").replace(/\t/g, "\\t").replace(/\r/g, "\\r")`
sanitization attempted before giving up on JSON arguments. -/
def sanitizeJsonArgs (s : String) : String :=
  ((s.replace "\n" "\\n").replace "\t" "\\t").replace "\r" "\\r"

/-- The metadata of a synthetic aborted tool result. -/
def abortMetadata : Json :=
  .obj [("exit_code", .num (-1)), ("duration_seconds", .num 0),
        ("aborted", .bool true)]

/-- The payload of the synthetic abort reply of `handleFunctionCall`. -/
def functionCallAbortPayload : Json :=
  .obj [("output", .str "Command execution was cancelled by user"),
        ("metadata", abortMetadata)]

/-- The payload of the synthetic abort reply of `handleLocalShellCall` and
of `cancel()`. -/
def executionCancelledPayload : Json :=
  .obj [("output", .str "Execution cancelled by user"),
        ("metadata", abortMetadata)]

/-- A normalised-or-not function-call item: `function` is present on the
chat-completions variant, `name`/`arguments` on the responses variant. -/
structure FunctionCallItem where
  functionName : Option String
  functionArguments : Option String
  isChatStyle : Bool
  callId : Option String
  itemId : Option String
  name : Option String
  arguments : Option String

/-- The parsed `args` value: shell-style parsing produces an `ExecInput`,
JSON-based tools keep the parsed JSON value. -/
inductive ParsedArgs where
  | execArgs (e : ExecInput)
  | jsonArgs (j : Json)

/-- JS `args == null`: parsing returned `undefined`, or `JSON.parse`
produced the JSON `null` value. -/
def argsIsNull : Option ParsedArgs → Bool
  | none => true
  | some (.jsonArgs .null) => true
  | some _ => false

/-- The `ToolExecutionError` built in the double-parse-failure branch, as
serialized into the output payload. -/
def invalidJsonPayload (name : Option String) (rawArguments : Option String) : Json :=
  let tool := jsOrStr name "unknown"
  toolExecutionErrorToJSON "INVALID_JSON" (getErrorMessage "INVALID_JSON" tool)
    { tool := tool
      expectedFormat := some (getExpectedFormat tool)
      receivedValue := rawArguments.map Json.str
      validationErrors := none
      suggestion := some ("Check your JSON syntax. " ++
        (if name = some "todo_list" then "Make sure multi-line content is properly escaped." else ""))
      examplePayload := some (getToolExample tool) }

/-- The argument-parsing stage of `handleFunctionCall`: shell-style tools
go through `parseToolCallArguments`, JSON-based tools through `JSON.parse`
with one sanitize-and-retry attempt, and a double failure returns early
(`Except.error`) with the serialized `ToolExecutionError` item. -/
def parseArgsStage (jsonParse : String → Option Json) (repair : String → String)
    (name rawArguments itemCallId : Option String) :
    Except (List OutItem) (Option ParsedArgs) :=
  if name = some "container.exec" || name = some "shell" then
    .ok ((parseToolCallArguments jsonParse repair (rawArguments.getD "\x7b\x7d")).map .execArgs)
  else if (match name with
           | some n => n = "fetch_url" || n = "web_search" || n = "scratchpad" ||
               n = "todo_list" || n = "tools_info"
           | none => false) then
    match jsonParse (rawArguments.getD "\x7b\x7d") with
    | some j => .ok (some (.jsonArgs j))
    | none =>
      match jsonParse (sanitizeJsonArgs (rawArguments.getD "\x7b\x7d")) with
      | some j => .ok (some (.jsonArgs j))
      | none =>
        .error [.functionCallOutput itemCallId (.json (invalidJsonPayload name rawArguments))]
  else
    .ok ((parseToolCallArguments jsonParse repair (rawArguments.getD "\x7b\x7d")).map .execArgs)

/-- The validation-error payload of the scratchpad / todo list branches. -/
def validationErrorPayload (message correctUsage : String) : Json :=
  .obj [("error", .str message), ("retry_required", .bool true),
        ("correct_usage", .str correctUsage),
        ("metadata", .obj [("error", .bool true), ("validation_error", .bool true)])]

/-- The re-prompt system message pushed alongside a validation error. -/
def validationRetryMessage (correctUsage : String) : OutItem :=
  .systemMessage ("⚠️ Tool validation error. Please retry with correct format: " ++ correctUsage)

/-- The scratchpad / todo list branch body (they differ only in the tool
tag and the error prose prelude). -/
def statefulToolBranch (toolTag prelude : String) (outcome : ToolOutcome) :
    Json × List OutItem :=
  match outcome with
  | .success result =>
    (.obj [("output", .str result), ("metadata", .obj [("tool", .str toolTag)])], [])
  | .validationError message correctUsage =>
    (validationErrorPayload message correctUsage, [validationRetryMessage correctUsage])
  | .failure errorText =>
    (.obj [("output", .str (prelude ++ errorText)),
           ("metadata", .obj [("error", .bool true)])], [])

/-- The `fetch_url` branch given non-null args. -/
def fetchUrlBranch (rt : ToolRuntime) (args : Json) : Json :=
  let url := args.getStr "url"
  if !(jsTruthyStr url) then
    .obj [("output", .str "Error: URL is required"),
          ("metadata", .obj [("error", .bool true)])]
  else
    match rt.fetchOutcome with
    | .ok result =>
      let toolLimit := getOutputLimit "fetch_url"
      let formattedOutput :=
        (if jsTruthyStr result.summary then "Summary: " ++ (result.summary.getD "") ++ "\n\n" else "")
          ++ (if result.contentType = "extracted" then
              "[Content intelligently extracted from " ++ toString result.originalSize ++
                " bytes to " ++ toString result.processedSize ++ " bytes]\n\n"
            else "")
          ++ truncateOutput (jsOrStr result.raw "") toolLimit
      .obj [("output", .str formattedOutput),
            ("metadata", .obj (("error", Json.bool false) :: result.metadataFields))]
    | .error message =>
      let errorOutput := "Error fetching URL: " ++ message ++
        (if rt.provider.toLower = "azure" && strContains message "extraction failed" then
          "\n\nFor Azure OpenAI: Check AZURE_EXTRACTION_DEPLOYMENT environment variable."
        else "")
      .obj [("output", .str errorOutput), ("metadata", .obj [("error", .bool true)])]

/-- The `web_search` branch given non-null args: note that unlike the
shell and fetch branches it never calls `truncateOutput`. -/
def webSearchBranch (rt : ToolRuntime) (args : Json) : Json :=
  let query := args.getStr "query"
  if !(jsTruthyStr query) then
    .obj [("output", .str "Error: Search query is required"),
          ("metadata", .obj [("error", .bool true)])]
  else
    match rt.searchOutcome with
    | .ok resultText =>
      .obj [("output", .str resultText), ("metadata", .obj [("error", Json.bool false)])]
    | .error message =>
      .obj [("output", .str ("Error searching web: " ++ message)),
            ("metadata", .obj [("error", .bool true)])]

/-- The tool-name branch chain of `handleFunctionCall`: how the initial
`"no function found"` output item and the empty `additionalItems` are
overridden per tool. -/
def dispatchToolBranches (rt : ToolRuntime) (name : Option String) (argsJson : Json) :
    OutPayload × List OutItem :=
  if name = some "scratchpad" then
    let r := statefulToolBranch "scratchpad" "Scratchpad error: " rt.scratchpadOutcome
    (.json r.1, r.2)
  else if name = some "todo_list" then
    let r := statefulToolBranch "todo_list" "Todo list error: " rt.todoListOutcome
    (.json r.1, r.2)
  else if name = some "tools_info" then
    match rt.toolsInfoOutcome with
    | .success result =>
      (.json (.obj [("output", .str result),
                    ("metadata", .obj [("tool", .str "tools_info")])]), [])
    | .validationError message _ =>
      (.json (.obj [("output", .str ("Tools info error: " ++ message)),
                    ("metadata", .obj [("error", .bool true)])]), [])
    | .failure errorText =>
      (.json (.obj [("output", .str ("Tools info error: " ++ errorText)),
                    ("metadata", .obj [("error", .bool true)])]), [])
  else if name = some "container.exec" || name = some "shell" then
    let toolLimit := getOutputLimit (jsOrStr name "shell")
    (.json (.obj [("output", .str (truncateOutput rt.execOutputText toolLimit)),
                  ("metadata", rt.execMetadata)]),
     rt.execAdditionalItems)
  else if name = some "fetch_url" then
    (.json (fetchUrlBranch rt argsJson), [])
  else if name = some "web_search" then
    (.json (webSearchBranch rt argsJson), [])
  else
    (.raw "no function found", [])

/-- `AgentLoop.handleFunctionCall(item)`.  The function always resolves
with at least one `function_call_output` item; every failure mode is
encoded into the payload.  (`handleExecCommand` is modelled as resolving;
its own failure behaviour lives outside this file.) -/
def handleFunctionCall (canceled : Bool) (jsonParse : String → Option Json)
    (repair : String → String) (rt : ToolRuntime) (item : FunctionCallItem) :
    List OutItem :=
  if canceled then
    let callId := (item.callId <|> item.itemId).getD ""
    [.functionCallOutput (some callId) (.json functionCallAbortPayload)]
  else
    let name := if item.isChatStyle then item.functionName else item.name
    let rawArguments := if item.isChatStyle then item.functionArguments else item.arguments
    let callId := (item.callId <|> item.itemId).getD ""
    let parseResult := parseArgsStage jsonParse repair name rawArguments item.callId
    match parseResult with
    | .error out => out
    | .ok args =>
      if argsIsNull args then
        [.functionCallOutput item.callId
          (.raw ("invalid arguments: " ++ (rawArguments.getD "undefined")))]
      else
        let argsJson := match args with
          | some (.jsonArgs j) => j
          | _ => .null
        let branch := dispatchToolBranches rt name argsJson
        .functionCallOutput (some callId) branch.1 :: branch.2

structure LocalShellAction where
  actionType : String
  command : List String
  workingDirectory : Option String
  timeoutMs : Option ℤ

structure LocalShellItem where
  itemId : Option String
  callId : Option String
  action : LocalShellAction

/-- `AgentLoop.handleLocalShellCall(item)`: unlike `handleFunctionCall`
this can throw (`Except.error`) — the source raises
`new Error("Invalid action type")` when `item.action.type !== "exec"`. -/
def handleLocalShellCall (canceled : Bool) (rt : ToolRuntime)
    (item : LocalShellItem) : Except String (List OutItem) :=
  if canceled then
    let callId := (item.callId <|> item.itemId).getD ""
    .ok [.localShellCallOutput (some callId) (.json executionCancelledPayload)]
  else if item.action.actionType ≠ "exec" then
    .error "Invalid action type"
  else
    .ok (.localShellCallOutput item.callId
        (.json (.obj [("output", .str rt.execOutputText), ("metadata", rt.execMetadata)]))
      :: rt.execAdditionalItems)

/-! ## AgentLoop cancellation state machine

`cancel()` / `terminate()` act on instance fields and emit observable
effects through callbacks; the embedding returns the new field state
together with the ordered list of emitted effects.  `onItem` and
`onLoading` calls are the `itemDelivered` / `loadingSet` events;
`controller.abort()` on the stream, `execAbortController.abort()` and
`hardAbort.abort()` are the remaining events. -/

inductive Event where
  | streamControllerAbort
  | execAbort
  | hardAbortSignal
  | itemDelivered (item : Item)
  | loadingSet (loading : Bool)
  deriving DecidableEq

structure AgentState where
  terminated : Bool
  canceled : Bool
  currentStream : Bool
  pendingAborts : List String
  generation : Nat
  hardAborted : Bool
  deriving DecidableEq

/-- The `output` string of the synthetic abort item emitted by `cancel()`
(`JSON.stringify` of the cancelled-execution payload; literal braces are
written `\x7b`/`\x7d`). -/
def cancelAbortOutputString : String :=
  "\x7b\"output\":\"Execution cancelled by user\",\"metadata\":\x7b\"exit_code\":-1,\"duration_seconds\":0,\"aborted\":true\x7d\x7d"

/-- The synthetic `function_call_output` item `cancel()` delivers for a
pending call id (fresh UI id `abort-` prefixed). -/
def abortItem (id : String) : Item :=
  .functionCallOutput (some ("abort-" ++ id)) id cancelAbortOutputString

/-- `AgentLoop.cancel()`.  A JS `Set` iterates in insertion order, hence
`pendingAborts` as a duplicate-free list.  (Clearing is inside the
`size > 0` guard in the source; clearing an empty set is the same state.)
The trailing `generation` bump follows the `onLoading(false)` call. -/
def cancel (s : AgentState) : AgentState × List Event :=
  if s.terminated then (s, [])
  else
    let streamEvents := if s.currentStream then [Event.streamControllerAbort] else []
    let abortEvents :=
      if s.pendingAborts.length > 0 then
        s.pendingAborts.map (fun id => Event.itemDelivered (abortItem id))
      else []
    ({ terminated := s.terminated
       canceled := true
       currentStream := false
       pendingAborts := []
       generation := s.generation + 1
       hardAborted := s.hardAborted },
     streamEvents ++ [Event.execAbort] ++ abortEvents ++ [Event.loadingSet false])

/-- `AgentLoop.terminate()`: sets the `terminated` flag, fires
`hardAbort.abort()` (whose constructor-installed once-listener aborts the
current `execAbortController`), then calls `this.cancel()` — which at that
point observes `terminated = true`. -/
def terminate (s : AgentState) : AgentState × List Event :=
  if s.terminated then (s, [])
  else
    let s1 : AgentState := { s with terminated := true, hardAborted := true }
    let r := cancel s1
    (r.1, Event.hardAbortSignal :: Event.execAbort :: r.2)

/-- The guard at the top of `AgentLoop.run()`: a terminated instance
throws. -/
def runPrecheck (s : AgentState) : Except String Unit :=
  if s.terminated then .error "AgentLoop has been terminated" else .ok ()

/-! ## stageItem and the module-level staged-id set

`alreadyStagedItemIds` is a module-level `Set<string>` shared by every run
and every `AgentLoop` instance in the process, with no clearing code; the
embedding threads it through `StageState`.  The source adds `item.id` even
when it is `undefined`, hence the `Option String` elements. -/

structure StageState where
  alreadyStagedItemIds : List (Option String)
  staged : List Item
  deriving DecidableEq

/-- JS `Set.prototype.add` (no duplicates, insertion order kept). -/
def setAdd (l : List (Option String)) (x : Option String) : List (Option String) :=
  if l.contains x then l else l ++ [x]

/-- The `stageItem` closure of `run()`: drops stray events of older
generations, silently drops items whose (truthy) id was ever staged
before, and otherwise records the id and appends the item to the staged
buffer. -/
def stageItem (thisGeneration generation : Nat) (st : StageState) (item : Item) :
    StageState :=
  if thisGeneration ≠ generation then st
  else if (match item.idOf with
           | some i => i ≠ "" && st.alreadyStagedItemIds.contains (some i)
           | none => false) then st
  else
    { alreadyStagedItemIds := setAdd st.alreadyStagedItemIds item.idOf
      staged := st.staged ++ [item] }

/-! ## Concrete instances used by the theorems -/

/-- A plain user message item. -/
def userMsg (id : String) : Item := .message id "user" [ContentPart.inputText "hello"]

/-- A transcript of 30 message items. -/
def msgs30 : List Item :=
  (List.range 30).map (fun n => Item.message ("m" ++ toString n) "user" [ContentPart.inputText "x"])

/-- Four user messages: a fixed point of Heavy compaction. -/
def items4 : List Item := [userMsg "a", userMsg "b", userMsg "c", userMsg "d"]

/-- An encoder returning 0 tokens for every text; it agrees with the real
byte-pair encoder on the only text it is applied to below (the empty
string encodes to no tokens). -/
def encZero : String → Nat := fun _ => 0

/-- A chat encoder whose batch token count is 92. -/
def encChat92 : List ChatMessage → Nat := fun _ => 92

/-- A chat encoder whose batch token count is 0. -/
def encChatZero : List ChatMessage → Nat := fun _ => 0

/-- `countTokensUsed(·, model)` instantiated with the above encoders. -/
def tcHeavyLoop : List Item → ℚ := fun items => (countTokensUsed encZero encChat92 items : ℚ)

/-- A summarizer stub (never consulted on the fixed-point runs below,
where `toSummarize` is empty). -/
def summEmpty : List Item → String := fun _ => ""

/-! ## The compaction partition in closed form -/

/-- Unrolling of the `olderMessages.forEach` loop: the first
`threshold - index` items are pushed onto `toSummarize` in order, the rest
are unshifted onto `toKeep` (hence reversed). -/
theorem olderLoop_eq (t : Nat) (l : List Item) : ∀ (i : Nat) (ts tk : List Item),
    olderLoop t l i (ts, tk) = (ts ++ l.take (t - i), (l.drop (t - i)).reverse ++ tk) := by
  induction l with
  | nil => intro i ts tk; simp [olderLoop]
  | cons a rest ih =>
    intro i ts tk
    by_cases h : i < t
    · have ht : t - i = (t - (i + 1)) + 1 := by omega
      rw [olderLoop, if_pos h, ih, ht]
      simp [List.append_assoc]
    · have ht : t - i = 0 := by omega
      have ht1 : t - (i + 1) = 0 := by omega
      rw [olderLoop, if_neg h, ih, ht, ht1]
      simp

/-- `toSummarize` is the prefix of the older messages below the
summarization threshold. -/
theorem prepare_toSummarize (items : List Item) (config : CompactionConfig) :
    (prepareItemsForCompaction items config).toSummarize =
      (olderMessagesOf items config).take (summarizeThreshold items config) := by
  by_cases h : config.dropSystemMessages <;>
    simp [prepareItemsForCompaction, olderLoop_eq, h, olderMessagesOf,
      summarizeThreshold, messageItemsOf]

/-- With system messages kept, `toKeep` is the kept older messages
reversed, then the recent messages in input order, then the kept recent
tool calls. -/
theorem prepare_toKeep (items : List Item) (config : CompactionConfig)
    (h : config.dropSystemMessages = false) :
    (prepareItemsForCompaction items config).toKeep =
      (keptOlderOf items config).reverse ++ recentMessagesOf items config ++
        keptToolCallsOf items config := by
  by_cases hd : config.dropToolOutputs <;>
    simp [prepareItemsForCompaction, olderLoop_eq, h, hd, keptOlderOf,
      olderMessagesOf, summarizeThreshold, messageItemsOf, recentMessagesOf,
      keptToolCallsOf, toolCallsOf, List.append_assoc]

/-- Any state on which Heavy compaction is the identity and whose usage
stays above 90% loops forever: every recursion depth is exhausted. -/
theorem perform_fixed_point (tc : List Item → ℚ) (summ : List Item → String) (now : Nat)
    (items : List Item) (usage maxTokens : ℚ)
    (hlvl : getCompactionLevel usage = CompactionLevel.HEAVY)
    (hsplit : prepareItemsForCompaction items (getCompactionConfig CompactionLevel.HEAVY) =
      { toSummarize := [], toKeep := items,
        toDropInfo := ["Dropped 0 tool call outputs"] })
    (husage : tc items / maxTokens * 100 = usage)
    (hgt : 90 < usage) :
    ∀ fuel, performProgressiveCompaction tc summ now fuel items usage maxTokens = none := by
  intro fuel
  induction fuel with
  | zero => rfl
  | succ n ih =>
    rw [performProgressiveCompaction, hlvl]
    simp only [hsplit]
    norm_num
    rw [husage]
    simp only [hgt, CompactionLevel.toNat, true_and]
    norm_num
    exact ih

/-! ## Claims about the compaction engine -/

/-- Claim C2: the recursive re-application of progressive compaction is
claimed to terminate for every input because the level is strictly
increasing.  In the code the recursive call re-derives its level from the
new usage, so at level Heavy with post-compaction usage still in (90, 95)
it re-runs at Heavy, not at the next level up, and on four user messages
whose token count keeps usage at 92% of the window the recursion never
returns for any depth: the level is not strictly increasing and the
recursion does not terminate. -/
theorem progressive_compaction_nonterminating :
    (∀ fuel, performProgressiveCompaction tcHeavyLoop summEmpty 0 fuel items4 92 100 = none) ∧
    getCompactionLevel 92 = CompactionLevel.HEAVY ∧
    90 < (92 : ℚ) ∧
    CompactionLevel.HEAVY.toNat < CompactionLevel.CRITICAL.toNat ∧
    ¬ CompactionLevel.HEAVY.toNat < (getCompactionLevel 92).toNat := by
  refine ⟨perform_fixed_point tcHeavyLoop summEmpty 0 items4 92 100 (by decide)
      (by decide) ?_ (by norm_num), by decide, by norm_num, by decide, by decide⟩
  have h : countTokensUsed encZero encChat92 items4 = 92 := by decide
  simp [tcHeavyLoop, h]

/-- Claim C4 (corrected): for 30 message items at Light level
(`keepRecentMessages = 10`, `summarizeOlderThan = 20`), the partition
summarizes the first 10 messages and keeps the other 20 verbatim —
the last 10 as the recent window and the 10 before them (reversed by the
unshift loop) as kept older messages. -/
theorem light_level_30_messages_partition (l : List Item)
    (hmsg : ∀ i ∈ l, i.isMessage = true) (hlen : l.length = 30) :
    (prepareItemsForCompaction l (getCompactionConfig CompactionLevel.LIGHT)).toSummarize =
      l.take 10 ∧
    (prepareItemsForCompaction l (getCompactionConfig CompactionLevel.LIGHT)).toKeep =
      ((l.drop 10).take 10).reverse ++ l.drop 20 ∧
    (prepareItemsForCompaction l (getCompactionConfig CompactionLevel.LIGHT)).toSummarize.length = 10 ∧
    (prepareItemsForCompaction l (getCompactionConfig CompactionLevel.LIGHT)).toKeep.length = 20 := by
  have hfilter : l.filter Item.isMessage = l := List.filter_eq_self.mpr hmsg
  have hfc : l.filter Item.isFunctionCall = [] := by
    rw [List.filter_eq_nil_iff]
    intro a ha
    have := hmsg a ha
    cases a <;> simp_all [Item.isMessage, Item.isFunctionCall]
  have hmi : messageItemsOf l = l := by rw [messageItemsOf, hfilter]
  have hrecent :
      recentMessagesOf l (getCompactionConfig CompactionLevel.LIGHT) = l.drop 20 := by
    rw [recentMessagesOf, hmi, sliceLast, if_neg (by decide), hlen]
    norm_num [getCompactionConfig]
  have holder :
      olderMessagesOf l (getCompactionConfig CompactionLevel.LIGHT) = l.take 20 := by
    rw [olderMessagesOf, hmi, sliceDropLast, if_neg (by decide), hlen]
    norm_num [getCompactionConfig]
  have hthr : summarizeThreshold l (getCompactionConfig CompactionLevel.LIGHT) = 10 := by
    rw [summarizeThreshold, hmi, hlen]
    norm_num [getCompactionConfig]
  have htools : keptToolCallsOf l (getCompactionConfig CompactionLevel.LIGHT) = [] := by
    rw [keptToolCallsOf]
    simp [toolCallsOf, hfc, sliceLast]
  have h1 := prepare_toSummarize l (getCompactionConfig CompactionLevel.LIGHT)
  rw [holder, hthr, List.take_take] at h1
  norm_num at h1
  have h2 := prepare_toKeep l (getCompactionConfig CompactionLevel.LIGHT) rfl
  rw [htools, keptOlderOf, holder, hthr, List.drop_take, hrecent] at h2
  norm_num at h2
  refine ⟨h1, h2, ?_, ?_⟩
  · rw [h1, List.length_take, hlen]
    omega
  · rw [h2]
    simp [List.length_take, List.length_drop, hlen]

/-- Concrete refutation of claim C4 as stated: on a 30-message transcript
at Light level the partition keeps 20 messages verbatim and marks 10 for
summarization, not 10 kept and 20 summarized. -/
theorem light_level_30_messages_cex :
    (prepareItemsForCompaction msgs30 (getCompactionConfig CompactionLevel.LIGHT)).toKeep.length = 20 ∧
    (prepareItemsForCompaction msgs30 (getCompactionConfig CompactionLevel.LIGHT)).toSummarize.length = 10 ∧
    ¬ ((prepareItemsForCompaction msgs30 (getCompactionConfig CompactionLevel.LIGHT)).toKeep.length = 10 ∧
       (prepareItemsForCompaction msgs30 (getCompactionConfig CompactionLevel.LIGHT)).toSummarize.length = 20) := by
  decide

/-- Witness for `light_level_30_messages_partition` at the concrete
30-message transcript. -/
theorem light_level_30_messages_partition_witness :
    (∀ i ∈ msgs30, Item.isMessage i = true) ∧ msgs30.length = 30 ∧
    (prepareItemsForCompaction msgs30 (getCompactionConfig CompactionLevel.LIGHT)).toSummarize =
      msgs30.take 10 :=
  ⟨by decide, by decide,
    (light_level_30_messages_partition msgs30 (by decide) (by decide)).1⟩

/-- A plain system message item. -/
def systemMsg (id : String) : Item := .message id "system" [ContentPart.inputText "rules"]

/-- Six messages whose first (older, positionally kept at Heavy) message
is a system message. -/
def sysItems6 : List Item :=
  [systemMsg "s0", userMsg "b1", userMsg "b2", userMsg "b3", userMsg "b4", userMsg "b5"]

/-- The final system-message filter of `prepareItemsForCompaction`
(applied to `toKeep` only when the configuration drops system messages). -/
def dropSystemFilter (config : CompactionConfig) (l : List Item) : List Item :=
  if config.dropSystemMessages then l.filter (fun i => !(Item.isSystemMessage i)) else l

/-- Concrete refutation of claim C9 as stated: at the Heavy configuration
on `[system, user, user, user, user, user]` both older messages are kept
positionally (more than one), yet the returned `toKeep` is only the five
user messages — the kept older system message is removed by the
`dropSystemMessages` filter, so the kept older messages do not appear in
reverse order followed by the recents. -/
theorem heavy_older_system_message_dropped_cex :
    1 < (keptOlderOf sysItems6 (getCompactionConfig CompactionLevel.HEAVY)).length ∧
    (prepareItemsForCompaction sysItems6 (getCompactionConfig CompactionLevel.HEAVY)).toKeep =
      [userMsg "b1", userMsg "b2", userMsg "b3", userMsg "b4", userMsg "b5"] ∧
    ¬ ((prepareItemsForCompaction sysItems6 (getCompactionConfig CompactionLevel.HEAVY)).toKeep =
        (keptOlderOf sysItems6 (getCompactionConfig CompactionLevel.HEAVY)).reverse ++
          recentMessagesOf sysItems6 (getCompactionConfig CompactionLevel.HEAVY) ++
          keptToolCallsOf sysItems6 (getCompactionConfig CompactionLevel.HEAVY)) := by
  decide

/-- Claim C9 (corrected): for every input and every configuration, the
returned `toKeep` is the kept older messages in reverse of their input
order, followed by the recent messages in their input order and the kept
recent tool calls — after the system-message filter when the configuration
drops system messages (Heavy/Critical), which removes kept older system
messages from that list. -/
theorem kept_older_reversed_after_system_filter (items : List Item)
    (config : CompactionConfig) :
    (prepareItemsForCompaction items config).toKeep =
      dropSystemFilter config
        ((keptOlderOf items config).reverse ++ recentMessagesOf items config ++
          keptToolCallsOf items config) := by
  by_cases hd : config.dropToolOutputs <;> by_cases h : config.dropSystemMessages <;>
    simp [prepareItemsForCompaction, olderLoop_eq, h, hd, keptOlderOf,
      olderMessagesOf, summarizeThreshold, messageItemsOf, recentMessagesOf,
      keptToolCallsOf, toolCallsOf, dropSystemFilter, List.append_assoc]

/-! ## Claims about token accounting -/

/-- An empty-output tool result: it costs the fixed 3-token framing
overhead whatever the text encoder does with the empty string. -/
def emptyOutputItem : Item := .functionCallOutput none "call-1" ""

/-- Claim C8 (corrected): `percentUsed + percentRemaining = 100` holds
(exactly, over ℚ) whenever the used token count does not exceed the
window; when it does, `remaining` is clamped to 0 and the sum exceeds
100 (see the counterexample). -/
theorem token_stats_percent_invariant (enc : String → Nat)
    (encChat : List ChatMessage → Nat) (items : List Item) (maxTokens : ℚ)
    (hmax : 0 < maxTokens)
    (hused : (countTokensUsed enc encChat items : ℚ) ≤ maxTokens) :
    (getTokenStats enc encChat items maxTokens).percentUsed +
      (getTokenStats enc encChat items maxTokens).percentRemaining = 100 := by
  have hne : maxTokens ≠ 0 := ne_of_gt hmax
  have hrem : max 0 (maxTokens - (countTokensUsed enc encChat items : ℚ)) =
      maxTokens - (countTokensUsed enc encChat items : ℚ) :=
    max_eq_right (by linarith)
  simp only [getTokenStats, hrem]
  field_simp
  ring

/-- Concrete refutation of claim C8 as stated: a 3-token item list against
a 1-token window gives `percentUsed = 300` and `percentRemaining = 0`, so
the invariant sum is 300, not 100 (the clamp `remaining = max(0, ...)`
breaks the identity once usage exceeds the window). -/
theorem token_stats_percent_cex :
    (0 : ℚ) < 1 ∧
    (getTokenStats encZero encChatZero [emptyOutputItem] 1).percentUsed +
        (getTokenStats encZero encChatZero [emptyOutputItem] 1).percentRemaining = 300 ∧
    ¬ ((getTokenStats encZero encChatZero [emptyOutputItem] 1).percentUsed +
        (getTokenStats encZero encChatZero [emptyOutputItem] 1).percentRemaining = 100) := by
  have h3 : countTokensUsed encZero encChatZero [emptyOutputItem] = 3 := by decide
  refine ⟨by norm_num, ?_, ?_⟩
  · simp [getTokenStats, h3]
    norm_num
  · simp [getTokenStats, h3]

/-- Witness for `token_stats_percent_invariant`: 3 used tokens in a
5-token window. -/
theorem token_stats_percent_invariant_witness :
    (0 : ℚ) < 5 ∧
    ((countTokensUsed encZero encChatZero [emptyOutputItem] : ℚ) ≤ 5) ∧
    (getTokenStats encZero encChatZero [emptyOutputItem] 5).percentUsed +
      (getTokenStats encZero encChatZero [emptyOutputItem] 5).percentRemaining = 100 := by
  have h3 : countTokensUsed encZero encChatZero [emptyOutputItem] = 3 := by decide
  exact ⟨by norm_num, by rw [h3]; norm_num,
    token_stats_percent_invariant encZero encChatZero [emptyOutputItem] 5
      (by norm_num) (by rw [h3]; norm_num)⟩

/-! ## Claims about cancel / terminate / stageItem -/

/-- Claim C1: on a non-terminated instance, `cancel()` leaves
`pendingAborts` empty, and every id that was pending has its synthetic
aborted `function_call_output` delivered strictly before the
`onLoading(false)` call (the effect list ends with the loading event and
all deliveries sit in the prefix before it). -/
theorem cancel_answers_all_pending (s : AgentState) (h : s.terminated = false) :
    (cancel s).1.pendingAborts = [] ∧
    ∃ pre, (cancel s).2 = pre ++ [Event.loadingSet false] ∧
      ∀ id ∈ s.pendingAborts, Event.itemDelivered (abortItem id) ∈ pre := by
  have h' : ¬ s.terminated = true := by simp [h]
  refine ⟨by simp [cancel, h'],
    (if s.currentStream then [Event.streamControllerAbort] else []) ++ [Event.execAbort] ++
      (if s.pendingAborts.length > 0 then
        s.pendingAborts.map (fun id => Event.itemDelivered (abortItem id))
      else []),
    by simp [cancel, h'], ?_⟩
  intro id hid
  have hpos : 0 < s.pendingAborts.length := List.length_pos.mpr (List.ne_nil_of_mem hid)
  simp only [if_pos hpos, List.mem_append, List.mem_map]
  exact Or.inr ⟨id, hid, rfl⟩

/-- A live instance with two outstanding tool calls. -/
def agentPending : AgentState :=
  { terminated := false, canceled := false, currentStream := true,
    pendingAborts := ["call-1", "call-2"], generation := 7, hardAborted := false }

/-- Witness for `cancel_answers_all_pending` on a live instance with two
pending call ids. -/
theorem cancel_answers_all_pending_witness :
    agentPending.terminated = false ∧
    ((cancel agentPending).1.pendingAborts = [] ∧
      ∃ pre, (cancel agentPending).2 = pre ++ [Event.loadingSet false] ∧
        ∀ id ∈ agentPending.pendingAborts, Event.itemDelivered (abortItem id) ∈ pre) :=
  ⟨rfl, cancel_answers_all_pending agentPending rfl⟩

/-- A live instance with one outstanding tool call and an active stream. -/
def agentLive : AgentState :=
  { terminated := false, canceled := false, currentStream := true,
    pendingAborts := ["call-1"], generation := 0, hardAborted := false }

/-- Claim C7 (code bug evidence): `terminate()` sets the `terminated` flag
before invoking `cancel()`, whose guard then returns immediately — so on a
live instance with a pending call, terminate aborts nothing beyond the
hard-abort signal: no synthetic aborted result is delivered, the pending
set is not cleared, the stream controller is not aborted and loading is
never set to false, whereas a direct `cancel()` on the same state does all
of that.  Only the permanent-flag half of the claim holds (`run()`
afterwards throws). -/
theorem terminate_skips_cancel_work :
    (terminate agentLive).1.terminated = true ∧
    (terminate agentLive).1.pendingAborts = ["call-1"] ∧
    (terminate agentLive).2 = [Event.hardAbortSignal, Event.execAbort] ∧
    Event.itemDelivered (abortItem "call-1") ∉ (terminate agentLive).2 ∧
    Event.loadingSet false ∉ (terminate agentLive).2 ∧
    Event.streamControllerAbort ∉ (terminate agentLive).2 ∧
    runPrecheck (terminate agentLive).1 = Except.error "AgentLoop has been terminated" ∧
    (cancel agentLive).1.pendingAborts = [] ∧
    Event.itemDelivered (abortItem "call-1") ∈ (cancel agentLive).2 ∧
    Event.loadingSet false ∈ (cancel agentLive).2 :=
  ⟨rfl, rfl, rfl, by decide, by decide, by decide, rfl, rfl, by decide, by decide⟩

/-- Membership in the staged-id set survives any further `setAdd`. -/
theorem setAdd_mem (l : List (Option String)) (x y : Option String)
    (hx : x ∈ l) : x ∈ setAdd l y := by
  unfold setAdd
  split
  · exact hx
  · exact List.mem_append_left _ hx

/-- Claim C10: an item whose (non-empty) id is already in the module-level
`alreadyStagedItemIds` set is silently dropped by `stageItem` — the state
(set and staged buffer) is unchanged, so the item is neither staged nor
ever delivered — and the set only ever grows, whatever item is staged
next by any run or instance sharing it. -/
theorem stageItem_drops_duplicate_ids (thisGen gen : Nat) (st : StageState)
    (item : Item) (i : String)
    (hid : item.idOf = some i) (hne : i ≠ "")
    (hmem : some i ∈ st.alreadyStagedItemIds) :
    stageItem thisGen gen st item = st ∧
    ∀ (item2 : Item) (x : Option String), x ∈ st.alreadyStagedItemIds →
      x ∈ (stageItem thisGen gen st item2).alreadyStagedItemIds := by
  have hc : st.alreadyStagedItemIds.contains (some i) = true := by
    simpa using hmem
  constructor
  · unfold stageItem
    by_cases hgen : thisGen ≠ gen
    · rw [if_pos hgen]
    · rw [if_neg hgen, if_pos (by simp [hid, hne, hc, hmem])]
  · intro item2 x hx
    unfold stageItem
    by_cases hgen : thisGen ≠ gen
    · rw [if_pos hgen]; exact hx
    · rw [if_neg hgen]
      split
      · exact hx
      · exact setAdd_mem _ _ _ hx

/-- A stage state that has already seen the id `item-1`. -/
def stagedSt : StageState :=
  { alreadyStagedItemIds := [some "item-1"], staged := [userMsg "item-1"] }

/-- Witness for `stageItem_drops_duplicate_ids`: re-staging an item with
the already-seen id `item-1` changes nothing. -/
theorem stageItem_drops_duplicate_ids_witness :
    (userMsg "item-1").idOf = some "item-1" ∧ ("item-1" : String) ≠ "" ∧
    some "item-1" ∈ stagedSt.alreadyStagedItemIds ∧
    stageItem 3 3 stagedSt (userMsg "item-1") = stagedSt :=
  ⟨rfl, by decide, by decide,
    (stageItem_drops_duplicate_ids 3 3 stagedSt (userMsg "item-1") "item-1"
      rfl (by decide) (by decide)).1⟩

/-! ## Claims about the tool dispatcher -/

/-- A runtime in which every executor result is inert. -/
def trivialRuntime : ToolRuntime :=
  { scratchpadOutcome := .success "", todoListOutcome := .success "",
    toolsInfoOutcome := .success "", execOutputText := "", execMetadata := .null,
    execAdditionalItems := [], fetchOutcome := .error "down",
    searchOutcome := .error "down", provider := "openai" }

/-- A parse oracle on which `JSON.parse` always throws — the behaviour of
the real parser on the raw text `\x7bbad json` and on its sanitized form
(which is the same text: it has no newlines, tabs or carriage returns). -/
def parseNone : String → Option Json := fun _ => none

/-- A repair stub (identity). -/
def repairId : String → String := fun s => s

/-- The unparsable argument text of spec Scenario B. -/
def badJsonRaw : String := "\x7bbad json"

/-- A `todo_list` invocation carrying the unparsable arguments. -/
def todoBadItem : FunctionCallItem :=
  { functionName := none, functionArguments := none, isChatStyle := false,
    callId := some "call-3", itemId := some "fc-3", name := some "todo_list",
    arguments := some badJsonRaw }

/-- A local shell call whose action type is not `exec`. -/
def localShellWaitItem : LocalShellItem :=
  { itemId := some "ls-1", callId := some "call-7",
    action := { actionType := "wait", command := [], workingDirectory := none,
                timeoutMs := none } }

/-- The early-return list of the parse stage is always a single item. -/
theorem parseArgsStage_error_singleton (jp : String → Option Json)
    (rp : String → String) (n ra cid : Option String) (out : List OutItem)
    (h : parseArgsStage jp rp n ra cid = .error out) : out.length = 1 := by
  unfold parseArgsStage at h
  repeat' split at h
  all_goals first
    | (injection h with h2; rw [← h2]; rfl)
    | injection h

/-- Claim C3 (corrected): `handleFunctionCall` always resolves with at
least one result item — unknown tools, unparsable and null arguments and
executor failures are all encoded into the returned payload — but its
sibling entry point `handleLocalShellCall` throws on a non-`exec` action
type instead of returning an error result. -/
theorem dispatch_failures_encoded (canceled : Bool) (jsonParse : String → Option Json)
    (repair : String → String) (rt : ToolRuntime) (item : FunctionCallItem)
    (rt2 : ToolRuntime) (it : LocalShellItem)
    (hact : it.action.actionType ≠ "exec") :
    1 ≤ (handleFunctionCall canceled jsonParse repair rt item).length ∧
    handleLocalShellCall false rt2 it = .error "Invalid action type" := by
  constructor
  · cases canceled with
    | true => simp [handleFunctionCall]
    | false =>
      simp only [handleFunctionCall, Bool.false_eq_true, if_false]
      repeat' split
      all_goals try
        (rename_i out heq
         have h1 := parseArgsStage_error_singleton _ _ _ _ _ _ heq
         omega)
      all_goals
        (simp only [List.length_cons]
         omega)
  · simp [handleLocalShellCall, hact]

/-- Concrete refutation of claim C3 as stated (a dispatch that throws):
a local shell call whose action type is `wait` raises
`Invalid action type` instead of returning a result item. -/
theorem local_shell_call_throws_cex :
    handleLocalShellCall false trivialRuntime localShellWaitItem =
      .error "Invalid action type" := rfl

/-- Witness for `dispatch_failures_encoded` at concrete inputs. -/
theorem dispatch_failures_encoded_witness :
    localShellWaitItem.action.actionType ≠ "exec" ∧
    (1 ≤ (handleFunctionCall false parseNone repairId trivialRuntime todoBadItem).length ∧
      handleLocalShellCall false trivialRuntime localShellWaitItem =
        .error "Invalid action type") :=
  ⟨by decide,
    dispatch_failures_encoded false parseNone repairId trivialRuntime todoBadItem
      trivialRuntime localShellWaitItem (by decide)⟩

/-- Claim C5 (corrected): when the arguments of a JSON-based tool fail to
parse even after the sanitize-and-retry attempt, the dispatcher returns
(never throws) a single result item whose payload is the serialized
`ToolExecutionError`: it contains `error: true`, `code: INVALID_JSON` and
the literal example payload for the tool — but no `retry_required` field
(that field is produced only by the validation-error branches). -/
theorem invalid_json_returns_example_payload
    (jsonParse : String → Option Json) (repair : String → String) (rt : ToolRuntime)
    (item : FunctionCallItem) (n raw : String)
    (hstyle : item.isChatStyle = false)
    (hname : item.name = some n)
    (hargs : item.arguments = some raw)
    (htool : n = "fetch_url" ∨ n = "web_search" ∨ n = "scratchpad" ∨
      n = "todo_list" ∨ n = "tools_info")
    (hp1 : jsonParse raw = none)
    (hp2 : jsonParse (sanitizeJsonArgs raw) = none) :
    handleFunctionCall false jsonParse repair rt item =
      [OutItem.functionCallOutput item.callId
        (.json (invalidJsonPayload (some n) (some raw)))] ∧
    (invalidJsonPayload (some n) (some raw)).lookupField "retry_required" = none ∧
    (invalidJsonPayload (some n) (some raw)).lookupField "error" = some (Json.bool true) ∧
    (invalidJsonPayload (some n) (some raw)).lookupField "code" =
      some (Json.str "INVALID_JSON") ∧
    (invalidJsonPayload (some n) (some raw)).lookupField "example" =
      some (getToolExample (jsOrStr (some n) "unknown")) := by
  refine ⟨?_, rfl, rfl, rfl, rfl⟩
  rcases htool with h | h | h | h | h <;> subst h <;>
    simp [handleFunctionCall, parseArgsStage, hstyle, hname, hargs, hp1, hp2]

/-- Concrete refutation of claim C5 as stated: dispatching `todo_list`
with arguments `\x7bbad json` returns the INVALID_JSON payload, which
carries the example but no `retry_required: true` field. -/
theorem invalid_json_no_retry_required_cex :
    handleFunctionCall false parseNone repairId trivialRuntime todoBadItem =
      [OutItem.functionCallOutput (some "call-3")
        (.json (invalidJsonPayload (some "todo_list") (some badJsonRaw)))] ∧
    (invalidJsonPayload (some "todo_list") (some badJsonRaw)).lookupField
      "retry_required" = none ∧
    (invalidJsonPayload (some "todo_list") (some badJsonRaw)).lookupField
      "example" = some (getToolExample "todo_list") :=
  ⟨rfl, rfl, rfl⟩

/-- Witness for `invalid_json_returns_example_payload` at the concrete
`todo_list` invocation. -/
theorem invalid_json_returns_example_payload_witness :
    todoBadItem.isChatStyle = false ∧ todoBadItem.name = some "todo_list" ∧
    todoBadItem.arguments = some badJsonRaw ∧ parseNone badJsonRaw = none ∧
    parseNone (sanitizeJsonArgs badJsonRaw) = none ∧
    handleFunctionCall false parseNone repairId trivialRuntime todoBadItem =
      [OutItem.functionCallOutput todoBadItem.callId
        (.json (invalidJsonPayload (some "todo_list") (some badJsonRaw)))] :=
  ⟨rfl, rfl, rfl, rfl, rfl,
    (invalid_json_returns_example_payload parseNone repairId trivialRuntime todoBadItem
      "todo_list" badJsonRaw rfl rfl rfl
      (Or.inr (Or.inr (Or.inr (Or.inl rfl)))) rfl rfl).1⟩

/-- A search result text one character over the declared `web_search` cap. -/
def longSearchText : String := String.mk (List.replicate 15001 'a')

def searchArgs : Json := .obj [("query", .str "weather")]

def jsonParseSearch : String → Option Json := fun _ => some searchArgs

def searchRuntimeLong : ToolRuntime :=
  { trivialRuntime with searchOutcome := .ok longSearchText }

def searchItem : FunctionCallItem :=
  { functionName := none, functionArguments := none, isChatStyle := false,
    callId := some "call-5", itemId := none, name := some "web_search",
    arguments := some "\x7b\"query\":\"weather\"\x7d" }

def shellArgsJson : Json := .obj [("command", .arr [.str "ls", .str "-la"])]

def jsonParseShell : String → Option Json := fun _ => some shellArgsJson

def shellItem : FunctionCallItem :=
  { functionName := none, functionArguments := none, isChatStyle := false,
    callId := some "call-8", itemId := none, name := some "shell",
    arguments := some "\x7b\"command\":[\"ls\",\"-la\"]\x7d" }

def fetchRes : FetchUrlResult :=
  { summary := none, contentType := "html", originalSize := 0, processedSize := 0,
    raw := some "hello", metadataFields := [("content_type", .str "html")] }

def fetchRuntime : ToolRuntime := { trivialRuntime with fetchOutcome := .ok fetchRes }

def urlArgs : Json := .obj [("url", .str "https://example.com")]

/-- Claim C6 (corrected): each tool family has its own declared cap
(shell 10000, fetch_url 20000, web_search 15000, container.exec 10000);
over-cap output is truncated to the cap with a marker stating the original
and truncated lengths, and this truncation is applied by the shell branch
(at the shell cap) and by the fetch branch (at the fetch cap) — but the
web_search branch embeds its result text without ever truncating, so its
declared cap is never enforced (see the counterexample). -/
theorem per_family_output_caps
    (text : String) (maxLength : Nat) (hlt : maxLength < text.length)
    (text2 : String) (maxLength2 : Nat) (hle : text2.length ≤ maxLength2)
    (rt : ToolRuntime) (args : Json) (s : String)
    (hsearch : rt.searchOutcome = Except.ok s)
    (hquery : jsTruthyStr (args.getStr "query") = true)
    (rt3 : ToolRuntime) (args3 : Json) (res : FetchUrlResult)
    (hfetch : rt3.fetchOutcome = Except.ok res)
    (hurl : jsTruthyStr (args3.getStr "url") = true)
    (jsonParse4 : String → Option Json) (repair4 : String → String)
    (rt4 : ToolRuntime) (item4 : FunctionCallItem) (raw4 : String) (ein : ExecInput)
    (hstyle4 : item4.isChatStyle = false)
    (hname4 : item4.name = some "shell")
    (hargs4 : item4.arguments = some raw4)
    (hparse4 : parseToolCallArguments jsonParse4 repair4 raw4 = some ein) :
    getOutputLimit "shell" = 10000 ∧ getOutputLimit "fetch_url" = 20000 ∧
    getOutputLimit "web_search" = 15000 ∧ getOutputLimit "container.exec" = 10000 ∧
    truncateOutput text maxLength =
      text.take maxLength ++ truncationMarker text.length maxLength ∧
    truncateOutput text2 maxLength2 = text2 ∧
    truncationMarker 15001 10000 = "\n\n[Output truncated from 15001 to 10000 characters]" ∧
    handleFunctionCall false jsonParse4 repair4 rt4 item4 =
      OutItem.functionCallOutput (some ((item4.callId <|> item4.itemId).getD ""))
        (.json (.obj [("output",
            Json.str (truncateOutput rt4.execOutputText (getOutputLimit "shell"))),
          ("metadata", rt4.execMetadata)]))
        :: rt4.execAdditionalItems ∧
    (∃ heading, fetchUrlBranch rt3 args3 =
      Json.obj [("output", Json.str (heading ++
          truncateOutput (jsOrStr res.raw "") (getOutputLimit "fetch_url"))),
        ("metadata", Json.obj (("error", Json.bool false) :: res.metadataFields))]) ∧
    webSearchBranch rt args =
      Json.obj [("output", Json.str s), ("metadata", Json.obj [("error", Json.bool false)])] := by
  refine ⟨rfl, rfl, rfl, rfl, ?_, ?_, rfl, ?_, ?_, ?_⟩
  · rw [truncateOutput, if_neg (by omega)]
  · rw [truncateOutput, if_pos hle]
  · simp [handleFunctionCall, parseArgsStage, hstyle4, hname4, hargs4, hparse4,
      dispatchToolBranches, argsIsNull, jsOrStr]
  · exact ⟨(if jsTruthyStr res.summary then
        "Summary: " ++ (res.summary.getD "") ++ "\n\n" else "") ++
      (if res.contentType = "extracted" then
        "[Content intelligently extracted from " ++ toString res.originalSize ++
          " bytes to " ++ toString res.processedSize ++ " bytes]\n\n" else ""),
      by simp [fetchUrlBranch, hfetch, hurl]⟩
  · simp [webSearchBranch, hsearch, hquery]

/-- Concrete refutation of claim C6 as stated: a `web_search` dispatch
whose result text is 15001 characters long (one over the declared 15000
cap) is returned verbatim, with no truncation and no marker. -/
theorem web_search_output_uncapped_cex :
    15000 < longSearchText.length ∧
    handleFunctionCall false jsonParseSearch repairId searchRuntimeLong searchItem =
      [OutItem.functionCallOutput (some "call-5")
        (.json (Json.obj [("output", Json.str longSearchText),
          ("metadata", Json.obj [("error", Json.bool false)])]))] := by
  constructor
  · rw [show longSearchText.length = (List.replicate 15001 'a').length from rfl,
      List.length_replicate]
    norm_num
  · rfl

/-- Witness for `per_family_output_caps` at concrete inputs. -/
theorem per_family_output_caps_witness :
    (3 < ("abcdef" : String).length ∧ ("ab" : String).length ≤ 5 ∧
      searchRuntimeLong.searchOutcome = Except.ok longSearchText ∧
      jsTruthyStr (searchArgs.getStr "query") = true ∧
      fetchRuntime.fetchOutcome = Except.ok fetchRes ∧
      jsTruthyStr (urlArgs.getStr "url") = true ∧
      shellItem.isChatStyle = false ∧ shellItem.name = some "shell" ∧
      shellItem.arguments = some "\x7b\"command\":[\"ls\",\"-la\"]\x7d" ∧
      parseToolCallArguments jsonParseShell repairId "\x7b\"command\":[\"ls\",\"-la\"]\x7d" =
        some { cmd := ["ls", "-la"], workdir := none, timeoutInMillis := none }) ∧
    webSearchBranch searchRuntimeLong searchArgs =
      Json.obj [("output", Json.str longSearchText),
        ("metadata", Json.obj [("error", Json.bool false)])] :=
  ⟨⟨by decide, by decide, rfl, rfl, rfl, rfl, rfl, rfl, rfl, rfl⟩,
    (per_family_output_caps "abcdef" 3 (by decide) "ab" 5 (by decide)
      searchRuntimeLong searchArgs longSearchText rfl rfl
      fetchRuntime urlArgs fetchRes rfl rfl
      jsonParseShell repairId trivialRuntime shellItem
      "\x7b\"command\":[\"ls\",\"-la\"]\x7d"
      { cmd := ["ls", "-la"], workdir := none, timeoutInMillis := none }
      rfl rfl rfl rfl).2.2.2.2.2.2.2.2.2⟩

end Codex
